import Mathlib

/-!
Verification of the appointment conflict/availability engine and of the RBAC
authorization core of the MediFlow Lite backend, shallowly embedded from
`backend/app/api/routes/appointments.py`, `backend/app/core/rbac.py`,
`backend/app/core/security.py` and `backend/app/models/enums.py`.

Timestamps are modelled as minutes on a global clock (a `Nat`);
`timedelta(minutes=m)` becomes addition of `m`.  Database rows live in plain
lists; SQLAlchemy `query(...).filter(...).first()` becomes `List.find?` on the
translated predicate and `query(...).filter(...)` becomes `List.filter`.
-/

namespace Mediflow

/-- Appointment status (`app/schemas/appointment.py`, `AppointmentStatus`). -/
inductive AppointmentStatus where
  | scheduled
  | confirmed
  | in_progress
  | completed
  | cancelled
  | no_show
deriving DecidableEq, Repr

/-- The unit under conflict analysis (`app/models/appointment.py`).  The
free-text payload fields (`appointment_type`, `reason`, `notes`) are never
read by the conflict or availability logic and are only copied through
verbatim by updates, so they are left out of the embedding. -/
structure Appointment where
  id : Nat
  patient_id : Nat
  doctor_id : Nat
  appointment_date : Nat
  duration_minutes : Nat
  status : AppointmentStatus
deriving DecidableEq, Repr

/-- The `Appointment.status.in_([SCHEDULED, CONFIRMED])` filter used by every
conflict query in `appointments.py`. -/
def activeStatus (s : AppointmentStatus) : Bool :=
  decide (s = AppointmentStatus.scheduled) || decide (s = AppointmentStatus.confirmed)

/-- The three-branch overlap disjunction written in the conflict filters of
`create_appointment` (`appointments.py` lines 171-187) and `update_appointment`
(lines 245-258), transcribed from the filter expression as it appears in the
source (at runtime the surrounding query construction crashes on its
`timedelta(minutes=Appointment.duration_minutes)` calls before the filter can
run — see `create_appointment` below; this predicate captures the overlap
logic those filters spell out): existing appointment `apt` against the
candidate interval `[newStart, newEnd)`:
1. the existing appointment starts at-or-before the candidate start and ends
   strictly after it;
2. the existing appointment starts strictly before the candidate end and ends
   at-or-after it;
3. the existing appointment lies fully inside the candidate interval. -/
def conflictBranches (apt : Appointment) (newStart newEnd : Nat) : Bool :=
  (decide (apt.appointment_date ≤ newStart) &&
     decide (apt.appointment_date + apt.duration_minutes > newStart)) ||
  (decide (apt.appointment_date < newEnd) &&
     decide (apt.appointment_date + apt.duration_minutes ≥ newEnd)) ||
  (decide (apt.appointment_date ≥ newStart) &&
     decide (apt.appointment_date + apt.duration_minutes ≤ newEnd))

/-- Spec-side definition (spec §4.1), for the refinement claim only: two
half-open intervals `[s1,e1)` and `[s2,e2)` conflict iff `s1 < e2 AND s2 < e1`. -/
def spec_halfopen_overlap (s1 e1 s2 e2 : Nat) : Bool :=
  decide (s1 < e2) && decide (s2 < e1)

/-- Patient row; only the primary key is read by the appointment routes. -/
structure Patient where
  id : Nat
deriving DecidableEq, Repr

/-- User row (`app/models/user.py`): the columns the authorization code and
the appointment routes read.  `role` is a raw string column. -/
structure User where
  id : Nat
  role : String
  is_active : Bool
  is_locked : Bool
deriving DecidableEq, Repr

/-- Request body of `POST /appointments` (`AppointmentCreate`,
`app/schemas/appointment.py`; free-text payload fields omitted as above). -/
structure AppointmentCreate where
  patient_id : Nat
  doctor_id : Nat
  appointment_date : Nat
  duration_minutes : Nat
  status : AppointmentStatus
deriving DecidableEq, Repr

/-- Outcome of `create_appointment`: the 404s, or the unhandled `TypeError`
that the global exception handler in `app/main.py` (lines 60-68) turns into
an HTTP 500. -/
inductive CreateResult where
  | not_found (detail : String)
  | internal_error (detail : String)
deriving DecidableEq, Repr

/-- `create_appointment` (`appointments.py` lines 141-211): patient lookup,
doctor lookup (must exist and hold the raw role string `"doctor"`), then the
conflict query.  Building that query evaluates
`timedelta(minutes=Appointment.duration_minutes)` (lines 175, 180, 185) on
the class-level SQLAlchemy column attribute, which `datetime.timedelta`
rejects with a `TypeError` while the filter is being constructed — before the
query can run — so every request that passes the two lookups crashes (HTTP
500 via the global handler), and the 409 branch and the insert below the
query are unreachable.  The `db` parameter mirrors the route's session; it is
never consulted because the crash precedes the query execution. -/
def create_appointment (patients : List Patient) (users : List User)
    (db : List Appointment) (data : AppointmentCreate) : CreateResult :=
  match patients.find? (fun p => p.id == data.patient_id) with
  | none => CreateResult.not_found ("Patient " ++ toString data.patient_id ++ " not found")
  | some _ =>
    match users.find? (fun u => u.id == data.doctor_id) with
    | none => CreateResult.not_found ("Doctor " ++ toString data.doctor_id ++ " not found")
    | some doctor =>
      if doctor.role ≠ "doctor" then
        CreateResult.not_found ("Doctor " ++ toString data.doctor_id ++ " not found")
      else
        CreateResult.internal_error
          "TypeError: unsupported type for timedelta minutes component: InstrumentedAttribute"

/-- Request body of `PUT /appointments/{id}` (`AppointmentUpdate`,
`app/schemas/appointment.py`): every field optional; an absent field is left
out of `model_dump(exclude_unset=True)`. -/
structure AppointmentUpdate where
  appointment_date : Option Nat
  duration_minutes : Option Nat
  status : Option AppointmentStatus
deriving DecidableEq, Repr

/-- The `for key, value in update_data.items(): setattr(appointment, key, value)`
loop: each present field overwrites the stored one. -/
def applyUpdate (appointment : Appointment) (upd : AppointmentUpdate) : Appointment :=
  { appointment with
    appointment_date := upd.appointment_date.getD appointment.appointment_date,
    duration_minutes := upd.duration_minutes.getD appointment.duration_minutes,
    status := upd.status.getD appointment.status }

/-- Outcome of `update_appointment`: 404, the `TypeError` 500, or the
committed update with the new table contents. -/
inductive UpdateResult where
  | not_found (detail : String)
  | internal_error (detail : String)
  | updated (appt : Appointment) (db : List Appointment)
deriving DecidableEq, Repr

/-- `update_appointment` (`appointments.py` lines 216-282).  The conflict
check is guarded by `if "appointment_date" in update_data`.  When the guard
fires, building the conflict query evaluates
`timedelta(minutes=Appointment.duration_minutes)` (lines 248, 252, 256) on
the class-level column attribute and crashes with a `TypeError` (HTTP 500)
before any check runs and before anything is persisted, so the 409 branch,
the `Appointment.id != appointment_id` exclusion filter and the persist below
are unreachable on that branch.  When `appointment_date` is absent — however
the update changes `duration_minutes` — no conflict check runs and the
present fields are persisted. -/
def update_appointment (db : List Appointment) (appointment_id : Nat)
    (upd : AppointmentUpdate) : UpdateResult :=
  match db.find? (fun a => a.id == appointment_id) with
  | none => UpdateResult.not_found ("Appointment " ++ toString appointment_id ++ " not found")
  | some appointment =>
    match upd.appointment_date with
    | some _ =>
      UpdateResult.internal_error
        "TypeError: unsupported type for timedelta minutes component: InstrumentedAttribute"
    | none =>
      UpdateResult.updated (applyUpdate appointment upd)
        (db.map (fun a => if a.id == appointment_id then applyUpdate appointment upd else a))

/-- `request.date.replace(hour=0, minute=0, second=0, microsecond=0)` in
minutes: truncation to midnight of the target day. -/
def dayStart (date : Nat) : Nat :=
  date / (24 * 60) * (24 * 60)

/-- The appointment query of `check_availability` (`appointments.py` lines
340-347): the doctor's scheduled/confirmed appointments starting on the target
day.  The query's `order_by(appointment_date)` is dropped: the `available`
flag computed below is insensitive to the order of this list. -/
def appointmentsOnDate (db : List Appointment) (doctor_id date_start : Nat) : List Appointment :=
  db.filter (fun a =>
    a.doctor_id == doctor_id &&
    decide (date_start ≤ a.appointment_date) &&
    decide (a.appointment_date < date_start + 24 * 60) &&
    activeStatus a.status)

/-- A generated slot (`TimeSlot`, `app/schemas/appointment.py`). -/
structure TimeSlot where
  start_time : Nat
  end_time : Nat
  available : Bool
deriving DecidableEq, Repr

/-- Body of the per-slot `for apt in appointments` loop of `check_availability`
(lines 357-365): the slot `[slotStart, slotEnd)` is available iff no fetched
appointment satisfies `current_time < apt_end and slot_end > apt.appointment_date`
(the loop breaks at the first such appointment). -/
def slotAvailable (appointments : List Appointment) (slotStart slotEnd : Nat) : Bool :=
  appointments.all (fun apt =>
    !(decide (slotStart < apt.appointment_date + apt.duration_minutes) &&
      decide (slotEnd > apt.appointment_date)))

/-- The `while current_time < end_time` slot loop of `check_availability`
(lines 350-374): emit a slot at `current_time`, then advance by 30 minutes. -/
def generateSlotsFrom (appointments : List Appointment)
    (current_time end_time duration_minutes : Nat) : List TimeSlot :=
  if h : current_time < end_time then
    { start_time := current_time,
      end_time := current_time + duration_minutes,
      available := slotAvailable appointments current_time (current_time + duration_minutes) } ::
      generateSlotsFrom appointments (current_time + 30) end_time duration_minutes
  else
    []
termination_by end_time - current_time
decreasing_by omega

/-- Slot generation over the fixed working window: `start_hour = 9`,
`end_hour = 17` on the day starting at `date_start`. -/
def generateSlots (appointments : List Appointment)
    (date_start duration_minutes : Nat) : List TimeSlot :=
  generateSlotsFrom appointments (date_start + 9 * 60) (date_start + 17 * 60) duration_minutes

/-- Abbreviation for the slot emitted at tick `t`; definitionally equal to the
record built in `generateSlotsFrom`. -/
def mkSlot (appointments : List Appointment) (duration_minutes t : Nat) : TimeSlot :=
  { start_time := t,
    end_time := t + duration_minutes,
    available := slotAvailable appointments t (t + duration_minutes) }

/-- Outcome of `check_availability`. -/
inductive AvailabilityResult where
  | not_found (detail : String)
  | ok (doctor_id : Nat) (slots : List TimeSlot)
deriving DecidableEq, Repr

/-- `check_availability` (`appointments.py` lines 314-380): doctor lookup and
role validation, then slot generation against the doctor's active appointments
on the requested day. -/
def check_availability (users : List User) (db : List Appointment)
    (doctor_id date duration_minutes : Nat) : AvailabilityResult :=
  match users.find? (fun u => u.id == doctor_id) with
  | none => AvailabilityResult.not_found ("Doctor " ++ toString doctor_id ++ " not found")
  | some doctor =>
    if doctor.role ≠ "doctor" then
      AvailabilityResult.not_found ("Doctor " ++ toString doctor_id ++ " not found")
    else
      AvailabilityResult.ok doctor_id
        (generateSlots (appointmentsOnDate db doctor_id (dayStart date))
          (dayStart date) duration_minutes)

/-- `UserRole` (`app/models/enums.py`): fixed closed role set. -/
inductive UserRole where
  | admin
  | doctor
  | nurse
  | receptionist
  | accountant
  | pharmacist
  | lab_technician
deriving DecidableEq, Repr

/-- The string value of each role (the `str, Enum` payload). -/
def UserRole.value : UserRole → String
  | UserRole.admin => "admin"
  | UserRole.doctor => "doctor"
  | UserRole.nurse => "nurse"
  | UserRole.receptionist => "receptionist"
  | UserRole.accountant => "accountant"
  | UserRole.pharmacist => "pharmacist"
  | UserRole.lab_technician => "lab_technician"

/-- `UserRole(current_user.role)`: enum construction from the raw role string;
`none` models the `ValueError` raised on an unrecognized string. -/
def parseRole (s : String) : Option UserRole :=
  if s == "admin" then some UserRole.admin
  else if s == "doctor" then some UserRole.doctor
  else if s == "nurse" then some UserRole.nurse
  else if s == "receptionist" then some UserRole.receptionist
  else if s == "accountant" then some UserRole.accountant
  else if s == "pharmacist" then some UserRole.pharmacist
  else if s == "lab_technician" then some UserRole.lab_technician
  else none

/-- `Permission` (`app/models/enums.py`): the closed capability set. -/
inductive Permission where
  | patient_create
  | patient_read
  | patient_update
  | patient_delete
  | appointment_create
  | appointment_read
  | appointment_update
  | appointment_delete
  | medical_record_create
  | medical_record_read
  | medical_record_update
  | medical_record_delete
  | billing_create
  | billing_read
  | billing_update
  | billing_delete
  | financial_reports
  | user_create
  | user_read
  | user_update
  | user_delete
  | system_settings
  | audit_log_read
  | backup_manage
deriving DecidableEq, Repr

/-- The string value of each permission token. -/
def Permission.value : Permission → String
  | Permission.patient_create => "patient:create"
  | Permission.patient_read => "patient:read"
  | Permission.patient_update => "patient:update"
  | Permission.patient_delete => "patient:delete"
  | Permission.appointment_create => "appointment:create"
  | Permission.appointment_read => "appointment:read"
  | Permission.appointment_update => "appointment:update"
  | Permission.appointment_delete => "appointment:delete"
  | Permission.medical_record_create => "medical_record:create"
  | Permission.medical_record_read => "medical_record:read"
  | Permission.medical_record_update => "medical_record:update"
  | Permission.medical_record_delete => "medical_record:delete"
  | Permission.billing_create => "billing:create"
  | Permission.billing_read => "billing:read"
  | Permission.billing_update => "billing:update"
  | Permission.billing_delete => "billing:delete"
  | Permission.financial_reports => "financial:reports"
  | Permission.user_create => "user:create"
  | Permission.user_read => "user:read"
  | Permission.user_update => "user:update"
  | Permission.user_delete => "user:delete"
  | Permission.system_settings => "system:settings"
  | Permission.audit_log_read => "audit:read"
  | Permission.backup_manage => "backup:manage"

/-- `ROLE_PERMISSIONS` (`app/models/enums.py` lines 59-106): the static
role-to-grant-set table; every role is a key, so the dictionary lookup with
default `[]` in `has_permission` is total. -/
def ROLE_PERMISSIONS : UserRole → List Permission
  | UserRole.admin =>
    [Permission.patient_create, Permission.patient_read, Permission.patient_update, Permission.patient_delete,
     Permission.appointment_create, Permission.appointment_read, Permission.appointment_update, Permission.appointment_delete,
     Permission.medical_record_create, Permission.medical_record_read, Permission.medical_record_update, Permission.medical_record_delete,
     Permission.billing_create, Permission.billing_read, Permission.billing_update, Permission.billing_delete,
     Permission.financial_reports,
     Permission.user_create, Permission.user_read, Permission.user_update, Permission.user_delete,
     Permission.system_settings, Permission.audit_log_read, Permission.backup_manage]
  | UserRole.doctor =>
    [Permission.patient_create, Permission.patient_read, Permission.patient_update,
     Permission.appointment_create, Permission.appointment_read, Permission.appointment_update,
     Permission.medical_record_create, Permission.medical_record_read, Permission.medical_record_update,
     Permission.billing_read]
  | UserRole.nurse =>
    [Permission.patient_read, Permission.patient_update,
     Permission.appointment_read,
     Permission.medical_record_read, Permission.medical_record_update]
  | UserRole.receptionist =>
    [Permission.patient_create, Permission.patient_read, Permission.patient_update,
     Permission.appointment_create, Permission.appointment_read, Permission.appointment_update, Permission.appointment_delete,
     Permission.billing_create, Permission.billing_read, Permission.billing_update]
  | UserRole.accountant =>
    [Permission.patient_read,
     Permission.billing_create, Permission.billing_read, Permission.billing_update,
     Permission.financial_reports]
  | UserRole.pharmacist =>
    [Permission.patient_read,
     Permission.medical_record_read,
     Permission.billing_create, Permission.billing_read]
  | UserRole.lab_technician =>
    [Permission.patient_read,
     Permission.medical_record_read, Permission.medical_record_update]

/-- `has_permission` (`app/models/enums.py` lines 109-111). -/
def has_permission (user_role : UserRole) (permission : Permission) : Bool :=
  decide (permission ∈ ROLE_PERMISSIONS user_role)

/-- Outcome of an authorization dependency: the returned user, or the 403 with
its `detail` string (`PermissionDenied` and the inline `HTTPException`s carry
the same status code and differ only in `detail`). -/
inductive AuthResult where
  | allowed (user : User)
  | denied (detail : String)
deriving DecidableEq, Repr

/-- Whether an authorization outcome is a denial. -/
def AuthResult.isDenied : AuthResult → Bool
  | AuthResult.allowed _ => false
  | AuthResult.denied _ => true

namespace Rbac

/-- `require_role` (`app/core/rbac.py` lines 25-60): parse the raw role
string, test membership in `allowed_roles`, then the unconditional
`is_active` / `is_locked` gates. -/
def require_role (allowed_roles : List UserRole) (current_user : User) : AuthResult :=
  match parseRole current_user.role with
  | none => AuthResult.denied ("Invalid role: " ++ current_user.role)
  | some user_role =>
    if user_role ∉ allowed_roles then
      AuthResult.denied ("This action requires one of these roles: " ++
        String.intercalate ", " (allowed_roles.map UserRole.value) ++
        ". Your role: " ++ user_role.value)
    else if current_user.is_active = false then
      AuthResult.denied "Your account is inactive. Please contact administrator."
    else if current_user.is_locked then
      AuthResult.denied
        "Your account is locked due to multiple failed login attempts. Please contact administrator."
    else
      AuthResult.allowed current_user

/-- `require_permission` (`app/core/rbac.py` lines 63-100). -/
def require_permission (required_permission : Permission) (current_user : User) : AuthResult :=
  match parseRole current_user.role with
  | none => AuthResult.denied ("Invalid role: " ++ current_user.role)
  | some user_role =>
    if has_permission user_role required_permission = false then
      AuthResult.denied ("This action requires permission: " ++ required_permission.value ++
        ". Your role (" ++ user_role.value ++ ") doesn't have this permission.")
    else if current_user.is_active = false then
      AuthResult.denied "Your account is inactive. Please contact administrator."
    else if current_user.is_locked then
      AuthResult.denied "Your account is locked. Please contact administrator."
    else
      AuthResult.allowed current_user

/-- `require_any_permission` (`app/core/rbac.py` lines 103-145). -/
def require_any_permission (required_permissions : List Permission) (current_user : User) : AuthResult :=
  match parseRole current_user.role with
  | none => AuthResult.denied ("Invalid role: " ++ current_user.role)
  | some user_role =>
    if (required_permissions.any (fun perm => has_permission user_role perm)) = false then
      AuthResult.denied ("This action requires one of these permissions: " ++
        String.intercalate ", " (required_permissions.map Permission.value))
    else if current_user.is_active = false then
      AuthResult.denied "Your account is inactive. Please contact administrator."
    else if current_user.is_locked then
      AuthResult.denied "Your account is locked. Please contact administrator."
    else
      AuthResult.allowed current_user

/-- `require_all_permissions` (`app/core/rbac.py` lines 148-180). -/
def require_all_permissions (required_permissions : List Permission) (current_user : User) : AuthResult :=
  match parseRole current_user.role with
  | none => AuthResult.denied ("Invalid role: " ++ current_user.role)
  | some user_role =>
    if (required_permissions.all (fun perm => has_permission user_role perm)) = false then
      AuthResult.denied ("This action requires ALL of these permissions: " ++
        String.intercalate ", " (required_permissions.map Permission.value))
    else if current_user.is_active = false then
      AuthResult.denied "Your account is inactive. Please contact administrator."
    else if current_user.is_locked then
      AuthResult.denied "Your account is locked. Please contact administrator."
    else
      AuthResult.allowed current_user

end Rbac

namespace Security

/-- `require_role` (`app/core/security.py` lines 136-154): the role guard the
appointment create/update/delete routes actually depend on.  It compares the
raw role string against `allowed_roles` and never reads `is_active` or
`is_locked`. -/
def require_role (allowed_roles : List String) (current_user : User) : AuthResult :=
  if current_user.role ∉ allowed_roles then
    AuthResult.denied ("Access denied. Required roles: " ++ String.intercalate ", " allowed_roles)
  else
    AuthResult.allowed current_user

end Security

/-- C1: for every pair of intervals with positive durations, the three-branch
conflict disjunction of `create_appointment` agrees with the spec's single
half-open rule `s1 < e2 AND s2 < e1`; in particular a candidate that starts
exactly when an existing appointment ends, or ends exactly when one starts, is
not a conflict. -/
theorem conflict_branches_equiv_halfopen (apt : Appointment) (newStart newEnd : Nat)
    (hcand : newStart < newEnd) (hapt : 0 < apt.duration_minutes) :
    conflictBranches apt newStart newEnd =
      spec_halfopen_overlap apt.appointment_date
        (apt.appointment_date + apt.duration_minutes) newStart newEnd ∧
    (apt.appointment_date + apt.duration_minutes = newStart →
      conflictBranches apt newStart newEnd = false) ∧
    (newEnd = apt.appointment_date →
      conflictBranches apt newStart newEnd = false) := by
  refine ⟨?_, ?_, ?_⟩
  · rw [Bool.eq_iff_iff]
    simp only [conflictBranches, spec_halfopen_overlap, Bool.or_eq_true,
      Bool.and_eq_true, decide_eq_true_eq]
    omega
  · intro h
    simp only [conflictBranches, Bool.or_eq_false_iff, Bool.and_eq_false_iff,
      decide_eq_false_iff_not]
    omega
  · intro h
    simp only [conflictBranches, Bool.or_eq_false_iff, Bool.and_eq_false_iff,
      decide_eq_false_iff_not]
    omega

/-- Witness for C1 at a concrete input: existing appointment 09:00 for 30
minutes against the candidate 10:00-10:30. -/
theorem conflict_branches_equiv_halfopen_witness :
    conflictBranches ⟨1, 1, 1, 540, 30, AppointmentStatus.scheduled⟩ 600 630 =
      spec_halfopen_overlap 540 (540 + 30) 600 630 ∧
    (540 + 30 = 600 →
      conflictBranches ⟨1, 1, 1, 540, 30, AppointmentStatus.scheduled⟩ 600 630 = false) ∧
    (630 = 540 →
      conflictBranches ⟨1, 1, 1, 540, 30, AppointmentStatus.scheduled⟩ 600 630 = false) :=
  conflict_branches_equiv_halfopen ⟨1, 1, 1, 540, 30, AppointmentStatus.scheduled⟩ 600 630
    (by decide) (by decide)

/-- Unrolling the slot loop: over a window of exactly `n` strides the loop
emits one slot per 30-minute tick. -/
theorem generateSlotsFrom_eq_map (appointments : List Appointment) (duration_minutes : Nat) :
    ∀ (n current_time : Nat),
      generateSlotsFrom appointments current_time (current_time + 30 * n) duration_minutes =
        (List.range n).map (fun i => mkSlot appointments duration_minutes (current_time + 30 * i)) := by
  intro n
  induction n with
  | zero =>
    intro cur
    rw [generateSlotsFrom]
    simp
  | succ n ih =>
    intro cur
    rw [generateSlotsFrom, dif_pos (by omega : cur < cur + 30 * (n + 1))]
    rw [show cur + 30 * (n + 1) = cur + 30 + 30 * n from by omega, ih (cur + 30)]
    rw [List.range_succ_eq_map]
    simp only [List.map_cons, List.map_map]
    refine congrArg₂ List.cons ?_ ?_
    · simp [mkSlot]
    · refine List.map_congr_left ?_
      intro i hi
      simp only [Function.comp_apply, Nat.succ_eq_add_one]
      rw [show cur + 30 + 30 * i = cur + 30 * (i + 1) from by omega]

/-- The 09:00-17:00 window at a 30-minute stride is exactly 16 ticks. -/
theorem generateSlots_eq_map (appointments : List Appointment) (date_start duration_minutes : Nat) :
    generateSlots appointments date_start duration_minutes =
      (List.range 16).map
        (fun i => mkSlot appointments duration_minutes (date_start + 540 + 30 * i)) := by
  rw [generateSlots,
    show date_start + 17 * 60 = (date_start + 9 * 60) + 30 * 16 from by omega,
    generateSlotsFrom_eq_map]

/-- C3: for every doctor, target date and requested duration in `[15, 240]`,
a successful availability check returns exactly 16 slots, ordered by strictly
increasing start time, starting at 09:00, 09:30, ..., 16:30 on the target
day, regardless of the appointment table contents. -/
theorem check_availability_slot_invariant (users : List User) (db : List Appointment)
    (doctor_id date duration_minutes : Nat)
    (hlo : 15 ≤ duration_minutes) (hhi : duration_minutes ≤ 240)
    (docId : Nat) (slots : List TimeSlot)
    (h : check_availability users db doctor_id date duration_minutes =
      AvailabilityResult.ok docId slots) :
    slots.length = 16 ∧
    slots.map TimeSlot.start_time =
      (List.range 16).map (fun i => dayStart date + 540 + 30 * i) ∧
    List.Pairwise (fun a b => a < b) (slots.map TimeSlot.start_time) := by
  unfold check_availability at h
  split at h
  · exact absurd h (by simp)
  · split at h
    · exact absurd h (by simp)
    · rw [AvailabilityResult.ok.injEq] at h
      rw [← h.2, generateSlots_eq_map]
      have hmap : ((List.range 16).map
            (fun i => mkSlot (appointmentsOnDate db doctor_id (dayStart date))
              duration_minutes (dayStart date + 540 + 30 * i))).map TimeSlot.start_time =
          (List.range 16).map (fun i => dayStart date + 540 + 30 * i) := by
        simp [mkSlot, List.map_map, Function.comp_def]
      refine ⟨by simp, hmap, ?_⟩
      rw [hmap, List.pairwise_map]
      refine (List.pairwise_lt_range 16).imp ?_
      intro a b hab
      omega

/-- Witness for C3: a doctor with an empty calendar, duration 30. -/
theorem check_availability_slot_invariant_witness :
    ((List.range 16).map
      (fun i => mkSlot ([] : List Appointment) 30 (dayStart 0 + 540 + 30 * i))).length = 16 ∧
    ((List.range 16).map
      (fun i => mkSlot ([] : List Appointment) 30 (dayStart 0 + 540 + 30 * i))).map
        TimeSlot.start_time =
      (List.range 16).map (fun i => dayStart 0 + 540 + 30 * i) ∧
    List.Pairwise (fun a b => a < b)
      (((List.range 16).map
        (fun i => mkSlot ([] : List Appointment) 30 (dayStart 0 + 540 + 30 * i))).map
          TimeSlot.start_time) :=
  check_availability_slot_invariant [⟨1, "doctor", true, false⟩] [] 1 0 30
    (by decide) (by decide) 1
    ((List.range 16).map (fun i => mkSlot ([] : List Appointment) 30 (dayStart 0 + 540 + 30 * i)))
    (by rw [check_availability]; simp [appointmentsOnDate, generateSlots_eq_map])

/-- C9: slot generation emits one slot per 30-minute tick with start in
`[09:00, 17:00)`; a slot whose end runs past 17:00 is kept, and a slot is
unavailable exactly when its interval meets a busy interval of the doctor. -/
theorem slots_cover_every_tick (appointments : List Appointment) (date_start duration_minutes : Nat) :
    generateSlots appointments date_start duration_minutes =
      (List.range 16).map
        (fun i => mkSlot appointments duration_minutes (date_start + 540 + 30 * i)) ∧
    (∀ t, (mkSlot appointments duration_minutes t).start_time = t ∧
      (mkSlot appointments duration_minutes t).end_time = t + duration_minutes) ∧
    (∀ t, (mkSlot appointments duration_minutes t).available = true ↔
      ∀ apt ∈ appointments,
        ¬(t < apt.appointment_date + apt.duration_minutes ∧
          t + duration_minutes > apt.appointment_date)) := by
  refine ⟨generateSlots_eq_map appointments date_start duration_minutes,
    fun t => ⟨rfl, rfl⟩, fun t => ?_⟩
  simp only [mkSlot, slotAvailable, List.all_eq_true, Bool.not_eq_eq_eq_not, Bool.not_true,
    Bool.and_eq_false_iff, decide_eq_false_iff_not]
  refine ⟨fun h apt ha => ?_, fun h apt ha => ?_⟩ <;> have := h apt ha <;> omega

/-- Witness for C9 at a concrete input: one busy interval 16:30-17:00 and a
requested duration of 60 minutes. -/
theorem slots_cover_every_tick_witness :
    generateSlots [⟨1, 10, 5, 990, 30, AppointmentStatus.scheduled⟩] 0 60 =
      (List.range 16).map
        (fun i => mkSlot [⟨1, 10, 5, 990, 30, AppointmentStatus.scheduled⟩] 60 (0 + 540 + 30 * i)) ∧
    (∀ t, (mkSlot [⟨1, 10, 5, 990, 30, AppointmentStatus.scheduled⟩] 60 t).start_time = t ∧
      (mkSlot [⟨1, 10, 5, 990, 30, AppointmentStatus.scheduled⟩] 60 t).end_time = t + 60) ∧
    (∀ t, (mkSlot [⟨1, 10, 5, 990, 30, AppointmentStatus.scheduled⟩] 60 t).available = true ↔
      ∀ apt ∈ [(⟨1, 10, 5, 990, 30, AppointmentStatus.scheduled⟩ : Appointment)],
        ¬(t < apt.appointment_date + apt.duration_minutes ∧ t + 60 > apt.appointment_date)) :=
  slots_cover_every_tick [⟨1, 10, 5, 990, 30, AppointmentStatus.scheduled⟩] 0 60

/-- C2: a caller whose account is inactive or locked is denied by each of the
four RBAC authorization operations, whatever the required roles or
permissions are (so in particular even an admin caller is denied). -/
theorem rbac_denies_inactive_or_locked (u : User)
    (h : u.is_active = false ∨ u.is_locked = true)
    (roles : List UserRole) (p : Permission) (anyPs allPs : List Permission) :
    (Rbac.require_role roles u).isDenied = true ∧
    (Rbac.require_permission p u).isDenied = true ∧
    (Rbac.require_any_permission anyPs u).isDenied = true ∧
    (Rbac.require_all_permissions allPs u).isDenied = true := by
  refine ⟨?_, ?_, ?_, ?_⟩
  · unfold Rbac.require_role
    split
    · rfl
    · split
      · rfl
      · split
        · rfl
        · split
          · rfl
          · rename_i hmem hact hlock
            rcases h with h | h
            · exact absurd h hact
            · exact absurd h hlock
  · unfold Rbac.require_permission
    split
    · rfl
    · split
      · rfl
      · split
        · rfl
        · split
          · rfl
          · rename_i hperm hact hlock
            rcases h with h | h
            · exact absurd h hact
            · exact absurd h hlock
  · unfold Rbac.require_any_permission
    split
    · rfl
    · split
      · rfl
      · split
        · rfl
        · split
          · rfl
          · rename_i hperm hact hlock
            rcases h with h | h
            · exact absurd h hact
            · exact absurd h hlock
  · unfold Rbac.require_all_permissions
    split
    · rfl
    · split
      · rfl
      · split
        · rfl
        · split
          · rfl
          · rename_i hperm hact hlock
            rcases h with h | h
            · exact absurd h hact
            · exact absurd h hlock

/-- Witness for C2: an inactive admin caller is denied everywhere even though
the admin role passes every role and permission test. -/
theorem rbac_denies_inactive_or_locked_witness :
    (Rbac.require_role [UserRole.admin] ⟨1, "admin", false, false⟩).isDenied = true ∧
    (Rbac.require_permission Permission.appointment_create ⟨1, "admin", false, false⟩).isDenied = true ∧
    (Rbac.require_any_permission [Permission.billing_read] ⟨1, "admin", false, false⟩).isDenied = true ∧
    (Rbac.require_all_permissions [Permission.billing_read] ⟨1, "admin", false, false⟩).isDenied = true :=
  rbac_denies_inactive_or_locked ⟨1, "admin", false, false⟩ (Or.inl rfl)
    [UserRole.admin] Permission.appointment_create [Permission.billing_read]
    [Permission.billing_read]

/-- C6: for the required set `{billing:read, financial:reports}`, every
active, unlocked caller whose role's grant set contains `billing:read` but
not `financial:reports` — that is, a doctor, receptionist or pharmacist —
passes `require_any_permission` and is denied by `require_all_permissions`. -/
theorem any_vs_all_on_billing_read (u : User) (r : UserRole)
    (hr : parseRole u.role = some r)
    (hbr : has_permission r Permission.billing_read = true)
    (hfr : has_permission r Permission.financial_reports = false)
    (hact : u.is_active = true) (hlock : u.is_locked = false) :
    Rbac.require_any_permission [Permission.billing_read, Permission.financial_reports] u =
      AuthResult.allowed u ∧
    Rbac.require_all_permissions [Permission.billing_read, Permission.financial_reports] u =
      AuthResult.denied
        "This action requires ALL of these permissions: billing:read, financial:reports" := by
  have hany : Rbac.require_any_permission
      [Permission.billing_read, Permission.financial_reports] u = AuthResult.allowed u := by
    unfold Rbac.require_any_permission
    simp only [hr]
    rw [if_neg (by simp [hbr]), if_neg (by simp [hact]), if_neg (by simp [hlock])]
  have hall : Rbac.require_all_permissions
      [Permission.billing_read, Permission.financial_reports] u =
      AuthResult.denied
        "This action requires ALL of these permissions: billing:read, financial:reports" := by
    unfold Rbac.require_all_permissions
    simp only [hr]
    rw [if_pos (by simp [hfr])]
    exact rfl
  exact ⟨hany, hall⟩

/-- Witness for C6 at concrete callers from each qualifying role: a doctor, a
receptionist and a pharmacist. -/
theorem any_vs_all_on_billing_read_witness :
    (Rbac.require_any_permission [Permission.billing_read, Permission.financial_reports]
        ⟨2, "doctor", true, false⟩ =
      AuthResult.allowed ⟨2, "doctor", true, false⟩ ∧
    Rbac.require_all_permissions [Permission.billing_read, Permission.financial_reports]
        ⟨2, "doctor", true, false⟩ =
      AuthResult.denied
        "This action requires ALL of these permissions: billing:read, financial:reports") ∧
    (Rbac.require_any_permission [Permission.billing_read, Permission.financial_reports]
        ⟨3, "receptionist", true, false⟩ =
      AuthResult.allowed ⟨3, "receptionist", true, false⟩ ∧
    Rbac.require_all_permissions [Permission.billing_read, Permission.financial_reports]
        ⟨3, "receptionist", true, false⟩ =
      AuthResult.denied
        "This action requires ALL of these permissions: billing:read, financial:reports") ∧
    (Rbac.require_any_permission [Permission.billing_read, Permission.financial_reports]
        ⟨4, "pharmacist", true, false⟩ =
      AuthResult.allowed ⟨4, "pharmacist", true, false⟩ ∧
    Rbac.require_all_permissions [Permission.billing_read, Permission.financial_reports]
        ⟨4, "pharmacist", true, false⟩ =
      AuthResult.denied
        "This action requires ALL of these permissions: billing:read, financial:reports") :=
  ⟨any_vs_all_on_billing_read ⟨2, "doctor", true, false⟩ UserRole.doctor rfl
      (by decide) (by decide) rfl rfl,
   any_vs_all_on_billing_read ⟨3, "receptionist", true, false⟩ UserRole.receptionist rfl
      (by decide) (by decide) rfl rfl,
   any_vs_all_on_billing_read ⟨4, "pharmacist", true, false⟩ UserRole.pharmacist rfl
      (by decide) (by decide) rfl rfl⟩

/-- C10: the role guard in `app/core/security.py` — the one the appointment
create/update/delete routes depend on — authorizes any caller whose raw role
string is in the allowed list, and it never consults `is_active` or
`is_locked`: the same caller with the flags set to any combination is still
authorized. -/
theorem security_require_role_ignores_flags (allowed_roles : List String) (u : User)
    (h : u.role ∈ allowed_roles) :
    Security.require_role allowed_roles u = AuthResult.allowed u ∧
    (∀ a l : Bool,
      Security.require_role allowed_roles { u with is_active := a, is_locked := l } =
        AuthResult.allowed { u with is_active := a, is_locked := l }) := by
  constructor
  · unfold Security.require_role
    rw [if_neg (by simp [h])]
  · intro a l
    unfold Security.require_role
    rw [if_neg (by simp [h])]

/-- Witness for C10: an inactive AND locked caller with the doctor role is
still authorized by the security-module role guard. -/
theorem security_require_role_ignores_flags_witness :
    Security.require_role ["admin", "doctor", "receptionist"] ⟨4, "doctor", false, true⟩ =
      AuthResult.allowed ⟨4, "doctor", false, true⟩ ∧
    (∀ a l : Bool,
      Security.require_role ["admin", "doctor", "receptionist"]
          { (⟨4, "doctor", false, true⟩ : User) with is_active := a, is_locked := l } =
        AuthResult.allowed
          { (⟨4, "doctor", false, true⟩ : User) with is_active := a, is_locked := l }) :=
  security_require_role_ignores_flags ["admin", "doctor", "receptionist"]
    ⟨4, "doctor", false, true⟩ (by simp)

/-- The first character of `a ++ s` is the first character of a nonempty `a`. -/
theorem string_head_append (a s : String) (c : Char) (ha : a.data.head? = some c) :
    (a ++ s).data.head? = some c := by
  rw [String.data_append]
  rcases hd : a.data with _ | ⟨x, xs⟩
  · rw [hd] at ha
    simp at ha
  · rw [hd] at ha
    simpa using ha

/-- Two strings with different first characters differ. -/
theorem string_ne_of_head (s t : String) (h : s.data.head? ≠ t.data.head?) : s ≠ t :=
  fun e => h (by rw [e])

/-- A string that does not start with `I` is not an `Invalid role:` message. -/
theorem ne_invalid_of_head (s : String) (c : Char) (hc : s.data.head? = some c)
    (hne : c ≠ 'I') (t : String) : s ≠ "Invalid role: " ++ t := by
  apply string_ne_of_head
  rw [hc, string_head_append "Invalid role: " t 'I' rfl]
  simp [hne]

/-- Denials with different detail strings differ. -/
theorem denied_ne_denied (s t : String) (h : s ≠ t) :
    AuthResult.denied s ≠ AuthResult.denied t := by
  intro e
  exact h (by injection e)

/-- C7: a caller whose role string maps to no enumerated role is denied by all
four RBAC operations with the `Invalid role:` message naming the bad role, and
that message is never produced for a caller whose role string is recognized,
so the two denial families are distinguishable. -/
theorem invalid_role_denied_distinctly (u : User) (hu : parseRole u.role = none)
    (roles : List UserRole) (p : Permission) (anyPs allPs : List Permission) :
    Rbac.require_role roles u = AuthResult.denied ("Invalid role: " ++ u.role) ∧
    Rbac.require_permission p u = AuthResult.denied ("Invalid role: " ++ u.role) ∧
    Rbac.require_any_permission anyPs u = AuthResult.denied ("Invalid role: " ++ u.role) ∧
    Rbac.require_all_permissions allPs u = AuthResult.denied ("Invalid role: " ++ u.role) ∧
    (∀ v : User, ∀ r : UserRole, parseRole v.role = some r →
      Rbac.require_role roles v ≠ AuthResult.denied ("Invalid role: " ++ v.role) ∧
      Rbac.require_permission p v ≠ AuthResult.denied ("Invalid role: " ++ v.role) ∧
      Rbac.require_any_permission anyPs v ≠ AuthResult.denied ("Invalid role: " ++ v.role) ∧
      Rbac.require_all_permissions allPs v ≠ AuthResult.denied ("Invalid role: " ++ v.role)) := by
  refine ⟨?_, ?_, ?_, ?_, ?_⟩
  · unfold Rbac.require_role
    simp only [hu]
  · unfold Rbac.require_permission
    simp only [hu]
  · unfold Rbac.require_any_permission
    simp only [hu]
  · unfold Rbac.require_all_permissions
    simp only [hu]
  · intro v r hv
    refine ⟨?_, ?_, ?_, ?_⟩
    · unfold Rbac.require_role
      simp only [hv]
      split
      · refine denied_ne_denied _ _ (ne_invalid_of_head _ 'T' ?_ (by decide) _)
        exact string_head_append _ _ _ (string_head_append _ _ _ (string_head_append _ _ _ rfl))
      · split
        · refine denied_ne_denied _ _ (ne_invalid_of_head _ 'Y' ?_ (by decide) _)
          rfl
        · split
          · refine denied_ne_denied _ _ (ne_invalid_of_head _ 'Y' ?_ (by decide) _)
            rfl
          · exact fun e => AuthResult.noConfusion e
    · unfold Rbac.require_permission
      simp only [hv]
      split
      · refine denied_ne_denied _ _ (ne_invalid_of_head _ 'T' ?_ (by decide) _)
        exact string_head_append _ _ _ (string_head_append _ _ _ (string_head_append _ _ _
          (string_head_append _ _ _ rfl)))
      · split
        · refine denied_ne_denied _ _ (ne_invalid_of_head _ 'Y' ?_ (by decide) _)
          rfl
        · split
          · refine denied_ne_denied _ _ (ne_invalid_of_head _ 'Y' ?_ (by decide) _)
            rfl
          · exact fun e => AuthResult.noConfusion e
    · unfold Rbac.require_any_permission
      simp only [hv]
      split
      · refine denied_ne_denied _ _ (ne_invalid_of_head _ 'T' ?_ (by decide) _)
        exact string_head_append _ _ _ rfl
      · split
        · refine denied_ne_denied _ _ (ne_invalid_of_head _ 'Y' ?_ (by decide) _)
          rfl
        · split
          · refine denied_ne_denied _ _ (ne_invalid_of_head _ 'Y' ?_ (by decide) _)
            rfl
          · exact fun e => AuthResult.noConfusion e
    · unfold Rbac.require_all_permissions
      simp only [hv]
      split
      · refine denied_ne_denied _ _ (ne_invalid_of_head _ 'T' ?_ (by decide) _)
        exact string_head_append _ _ _ rfl
      · split
        · refine denied_ne_denied _ _ (ne_invalid_of_head _ 'Y' ?_ (by decide) _)
          rfl
        · split
          · refine denied_ne_denied _ _ (ne_invalid_of_head _ 'Y' ?_ (by decide) _)
            rfl
          · exact fun e => AuthResult.noConfusion e

/-- Witness for C7: the unrecognized role string `superuser` is denied with
the `Invalid role:` message, while a recognized-but-insufficient `nurse`
caller is never denied with that message. -/
theorem invalid_role_denied_distinctly_witness :
    (Rbac.require_role [UserRole.admin] ⟨3, "superuser", true, false⟩ =
      AuthResult.denied ("Invalid role: " ++ "superuser")) ∧
    (Rbac.require_role [UserRole.admin] ⟨4, "nurse", true, false⟩ ≠
      AuthResult.denied ("Invalid role: " ++ "nurse")) :=
  ⟨(invalid_role_denied_distinctly ⟨3, "superuser", true, false⟩ rfl [UserRole.admin]
      Permission.patient_read [Permission.patient_read] [Permission.patient_read]).1,
   ((invalid_role_denied_distinctly ⟨3, "superuser", true, false⟩ rfl [UserRole.admin]
      Permission.patient_read [Permission.patient_read] [Permission.patient_read]).2.2.2.2
      ⟨4, "nurse", true, false⟩ UserRole.nurse rfl).1⟩

/-- C8 evidence: a dated self-update never succeeds.  Re-submitting the
doctor's only appointment with exactly its stored date and duration — the
no-self-conflict scenario of the claim — crashes with the
`timedelta`-on-column `TypeError` (HTTP 500) while the conflict query (the
one carrying the `Appointment.id != appointment_id` exclusion) is being
built, so the exclusion filter never runs and the update is neither
conflict-checked nor persisted. -/
theorem dated_self_update_crashes :
    update_appointment [⟨1, 10, 5, 540, 30, AppointmentStatus.scheduled⟩] 1
        ⟨some 540, some 30, none⟩ =
      UpdateResult.internal_error
        "TypeError: unsupported type for timedelta minutes component: InstrumentedAttribute" :=
  rfl

/-- C4 evidence: no update is ever conflict-checked.  A duration-only update
(no `appointment_date` in the body) is persisted with no conflict check,
producing two overlapping active appointments for the same doctor — an
overlap the three-branch filter expression itself would flag — while an
update that does carry `appointment_date` crashes with the
`timedelta`-on-column `TypeError` (HTTP 500) before any check or persist.
Appointment 1 runs 09:00-09:30 and appointment 2 runs 09:30-10:00; extending
appointment 1 to 60 minutes succeeds although the extended interval
[09:00, 10:00) overlaps appointment 2. -/
theorem duration_only_update_bypasses_conflict_check :
    update_appointment
        [⟨1, 10, 5, 540, 30, AppointmentStatus.scheduled⟩,
         ⟨2, 11, 5, 570, 30, AppointmentStatus.scheduled⟩] 1
        ⟨none, some 60, none⟩ =
      UpdateResult.updated ⟨1, 10, 5, 540, 60, AppointmentStatus.scheduled⟩
        [⟨1, 10, 5, 540, 60, AppointmentStatus.scheduled⟩,
         ⟨2, 11, 5, 570, 30, AppointmentStatus.scheduled⟩] ∧
    spec_halfopen_overlap 540 (540 + 60) 570 (570 + 30) = true ∧
    conflictBranches ⟨2, 11, 5, 570, 30, AppointmentStatus.scheduled⟩ 540 (540 + 60) = true ∧
    activeStatus AppointmentStatus.scheduled = true ∧
    update_appointment
        [⟨1, 10, 5, 540, 30, AppointmentStatus.scheduled⟩,
         ⟨2, 11, 5, 570, 30, AppointmentStatus.scheduled⟩] 1
        ⟨some 540, some 60, none⟩ =
      UpdateResult.internal_error
        "TypeError: unsupported type for timedelta minutes component: InstrumentedAttribute" :=
  ⟨rfl, by decide, by decide, by decide, rfl⟩

/-- C5 evidence: the program never rejects a create for overlap.  With a
valid patient and doctor and an existing overlapping scheduled appointment —
exactly the situation whose rejection the claim describes —
`create_appointment` crashes with the `timedelta`-on-column `TypeError`
(HTTP 500); the same crash occurs with an empty calendar, so no overlap
rejection (with or without identifying detail) is ever produced. -/
theorem create_conflict_rejection_never_happens :
    create_appointment [⟨10⟩] [⟨5, "doctor", true, false⟩]
        [⟨1, 10, 5, 540, 30, AppointmentStatus.scheduled⟩]
        ⟨10, 5, 550, 30, AppointmentStatus.scheduled⟩ =
      CreateResult.internal_error
        "TypeError: unsupported type for timedelta minutes component: InstrumentedAttribute" ∧
    create_appointment [⟨10⟩] [⟨5, "doctor", true, false⟩] []
        ⟨10, 5, 550, 30, AppointmentStatus.scheduled⟩ =
      CreateResult.internal_error
        "TypeError: unsupported type for timedelta minutes component: InstrumentedAttribute" :=
  ⟨rfl, rfl⟩

end Mediflow
